import Mathlib

/-!
Verification of the Series Analytics & Overlay Module of the stock-dashboard
repository (files `pages/03_added.py` and `pages/추가된 게시판.py`).

Shallow embedding conventions:
* Prices, volumes and derived quantities are modelled as rationals (`ℚ`);
  the Python code computes with IEEE doubles via pandas/numpy, whose
  arithmetic on these formulas is the real-number arithmetic except for
  rounding and for division by zero.
* numpy/pandas division by zero does NOT raise: it yields a non-finite
  double (`inf` or `nan`) and at most a runtime warning.  A non-finite
  result is modelled as `none : Option ℚ`; finite results as `some q`.
* Dates (`datetime` values) are modelled as integers; the concrete crisis
  catalogue encodes `datetime(y, m, d)` as the integer `y*10000 + m*100 + d`,
  an order-preserving encoding for calendar dates.
* `pandas.Series.std()` is `sqrt` of the ddof-1 (sample) variance.  Since
  the square root of a rational is irrational in general, the embedding
  tracks the squared volatility (`volatilitySq`); `std == 0` iff
  `volatilitySq = some 0`, and `std` is NaN iff `volatilitySq = none`.
-/

namespace StockApp

/-- One OHLCV bar of a price series (one row of the DataFrame returned by
`get_stock_data`).  `timestamp` is the DatetimeIndex entry, encoded as an
integer. -/
structure Bar where
  timestamp : Int
  open_ : ℚ
  high : ℚ
  low : ℚ
  close : ℚ
  volume : ℚ
deriving DecidableEq, Repr

/-- A bar of a normalized series: the original columns plus the derived
`Normalized Close` column added by `03_added.py` line 377.  `normalizedClose`
is `none` when the float value is non-finite (inf/NaN). -/
structure NBar where
  timestamp : Int
  open_ : ℚ
  high : ℚ
  low : ℚ
  close : ℚ
  volume : ℚ
  normalizedClose : Option ℚ
deriving DecidableEq, Repr

/-- Python-level errors that the analytics expressions can actually raise. -/
inductive PyError where
  /-- Python IndexError, raised by iloc on an empty frame. -/
  | indexError : PyError
  /-- The DivisionByZero error kind: the spec prescribes for a zero base
  price, which the numpy code never raises (division by zero yields inf/NaN);
  the constructor exists so that the spec claim is statable. -/
  | divisionByZero : PyError
deriving DecidableEq, Repr

/-- numpy float division: division by zero yields a non-finite value
(`inf` when the numerator is nonzero, `nan` when it is zero), modelled as
`none`; it never raises an exception. -/
def npDiv (a b : ℚ) : Option ℚ :=
  if b = 0 then none else some (a / b)

/-- Lines 376-377 of `03_added.py` applied to one series:

    initial_price = data["Close"].iloc[0]
    data["Normalized Close"] = (data["Close"] / initial_price) * 100

On an empty frame `.iloc[0]` raises `IndexError`; otherwise every bar keeps
its original columns and gains `(close / initial_price) * 100` as its
normalized close.  `normBar` is the per-row effect of the column
assignment. -/
def normBar (initialPrice : ℚ) (b : Bar) : NBar :=
  { timestamp := b.timestamp
    open_ := b.open_
    high := b.high
    low := b.low
    close := b.close
    volume := b.volume
    normalizedClose := (npDiv b.close initialPrice).map (fun r => r * 100) }

def normalize : List Bar → Except PyError (List NBar)
  | [] => .error .indexError
  | b0 :: rest => .ok ((b0 :: rest).map (normBar b0.close))

/-- Lines 373-380 of `03_added.py`: the guarded per-series step of the
all-weather loop.  `none` input models `data is None` (fetch failure);
a `none` result models the warn-and-skip branch (`st.warning`), in which no
series is produced at all. -/
def processSeries (fetched : Option (List Bar)) : Option (List NBar) :=
  match fetched with
  | none => none
  | some s =>
      if s.isEmpty then none
      else
        match normalize s with
        | .ok l => some l
        | .error _ => none

/-- Test fixture: a bar whose four price columns all equal `c`. -/
def mkBar (t : Int) (c : ℚ) : Bar :=
  { timestamp := t, open_ := c, high := c, low := c, close := c, volume := 0 }

/-- C1: for a non-empty series whose first close is nonzero, `normalize`
succeeds, every bar's normalized close is `100 * close / firstClose`, and the
first bar's normalized close is exactly 100. -/
theorem normalize_formula (b0 : Bar) (rest : List Bar) (h : b0.close ≠ 0) :
    ∃ l, normalize (b0 :: rest) = .ok l ∧
      l.map NBar.normalizedClose =
        (b0 :: rest).map (fun b => some (100 * b.close / b0.close)) ∧
      l.head?.map NBar.normalizedClose = some (some 100) := by
  refine ⟨_, rfl, ?_, ?_⟩
  · simp only [List.map_map]
    refine List.map_congr_left ?_
    intro b _
    simp only [Function.comp_apply, normBar, npDiv, if_neg h, Option.map_some]
    field_simp
    ring
  · simp [normBar, npDiv, if_neg h, div_self h]

/-- Witness for C1 at the concrete series with closes `[50, 110, 90]`
(the spec's non-trivial-base scenario). -/
theorem normalize_formula_witness :
    (mkBar 1 50).close ≠ 0 ∧
    ∃ l, normalize (mkBar 1 50 :: [mkBar 2 110, mkBar 3 90]) = .ok l ∧
      l.map NBar.normalizedClose =
        (mkBar 1 50 :: [mkBar 2 110, mkBar 3 90]).map
          (fun b => some (100 * b.close / (mkBar 1 50).close)) ∧
      l.head?.map NBar.normalizedClose = some (some 100) :=
  ⟨by norm_num [mkBar], normalize_formula (mkBar 1 50) [mkBar 2 110, mkBar 3 90]
    (by norm_num [mkBar])⟩

/-- Evaluation of iloc at index -1 on the non-empty series `b :: rest`: the
close of the last bar. -/
def lastClose (b : Bar) : List Bar → ℚ
  | [] => b.close
  | c :: r => lastClose c r

/-- The pandas Series mean of a list of values: sum divided by length. -/
def seriesMean (l : List ℚ) : ℚ := l.sum / l.length

/-- The pandas sample variance (ddof 1), the square of the pandas std:
the sum of squared deviations from the mean divided by `n - 1`.  With fewer
than two values the divisor is `≤ 0` and pandas yields NaN, modelled as
`none`. -/
def varSample (l : List ℚ) : Option ℚ :=
  if l.length < 2 then none
  else some (((l.map (fun x => (x - seriesMean l) * (x - seriesMean l))).sum) /
    ((l.length : ℚ) - 1))

/-- Modelled from the spec's words ("population-based (divisor `n`)"):
the population variance of a list of values, the square of the population
standard deviation the spec prescribes for `volatility`. -/
def specVarPopulation (l : List ℚ) : ℚ :=
  ((l.map (fun x => (x - seriesMean l) * (x - seriesMean l))).sum) / l.length

/-- One row of the performance table (`03_added.py` lines 277-294, and the
volatility column of `추가된 게시판.py` lines 32-43).  `totalReturnPct` is
`none` when the float value is non-finite; `volatilitySq` is the squared
standard deviation (`none` models NaN). -/
structure PerformanceSummary where
  startPrice : ℚ
  endPrice : ℚ
  totalReturnPct : Option ℚ
  maxPrice : ℚ
  minPrice : ℚ
  volatilitySq : Option ℚ
deriving DecidableEq, Repr

/-- Lines 277-294 of `03_added.py`: the per-series body of the performance
loop, guarded by `if len(data) > 0` (`none` for the empty series, whose row
is simply skipped):

    start_price = data["Close"].iloc[0]
    end_price = data["Close"].iloc[-1]
    total_return = ((end_price - start_price) / start_price) * 100
    max_price = data["Close"].max()
    min_price = data["Close"].min()
    std_dev = data["Close"].std()
-/
def summarize : List Bar → Option PerformanceSummary
  | [] => none
  | b :: rest =>
      some
        { startPrice := b.close
          endPrice := lastClose b rest
          totalReturnPct :=
            (npDiv (lastClose b rest - b.close) b.close).map (fun r => r * 100)
          maxPrice := (rest.map Bar.close).foldl max b.close
          minPrice := (rest.map Bar.close).foldl min b.close
          volatilitySq := varSample (b.close :: rest.map Bar.close) }

lemma le_foldl_max (l : List ℚ) : ∀ a : ℚ, a ≤ l.foldl max a := by
  induction l with
  | nil => intro a; simp
  | cons x xs ih =>
      intro a
      exact le_trans (le_max_left a x) (ih (max a x))

lemma foldl_max_le_of_mem (l : List ℚ) :
    ∀ a x : ℚ, x ∈ l → x ≤ l.foldl max a := by
  induction l with
  | nil => intro a x hx; cases hx
  | cons y ys ih =>
      intro a x hx
      rcases List.mem_cons.mp hx with rfl | hx
      · exact le_trans (le_max_right a x) (le_foldl_max ys (max a x))
      · exact ih (max a y) x hx

lemma foldl_max_mem (l : List ℚ) : ∀ a : ℚ, l.foldl max a = a ∨ l.foldl max a ∈ l := by
  induction l with
  | nil => intro a; left; rfl
  | cons x xs ih =>
      intro a
      rcases ih (max a x) with h | h
      · rw [List.foldl_cons, h]
        rcases le_total x a with hle | hle
        · left; exact max_eq_left hle
        · right; rw [max_eq_right hle]; exact List.mem_cons_self x xs
      · right
        rw [List.foldl_cons]
        exact List.mem_cons_of_mem x h

lemma foldl_min_le (l : List ℚ) : ∀ a : ℚ, l.foldl min a ≤ a := by
  induction l with
  | nil => intro a; simp
  | cons x xs ih =>
      intro a
      exact le_trans (ih (min a x)) (min_le_left a x)

lemma foldl_min_le_of_mem (l : List ℚ) :
    ∀ a x : ℚ, x ∈ l → l.foldl min a ≤ x := by
  induction l with
  | nil => intro a x hx; cases hx
  | cons y ys ih =>
      intro a x hx
      rcases List.mem_cons.mp hx with rfl | hx
      · exact le_trans (foldl_min_le ys (min a x)) (min_le_right a x)
      · exact ih (min a y) x hx

lemma foldl_min_mem (l : List ℚ) : ∀ a : ℚ, l.foldl min a = a ∨ l.foldl min a ∈ l := by
  induction l with
  | nil => intro a; left; rfl
  | cons x xs ih =>
      intro a
      rcases ih (min a x) with h | h
      · rw [List.foldl_cons, h]
        rcases le_total a x with hle | hle
        · left; exact min_eq_left hle
        · right; rw [min_eq_right hle]; exact List.mem_cons_self x xs
      · right
        rw [List.foldl_cons]
        exact List.mem_cons_of_mem x h

lemma lastClose_eq_getLast (b : Bar) (l : List Bar) :
    lastClose b l = (List.getLast (b :: l) (List.cons_ne_nil b l)).close := by
  induction l generalizing b with
  | nil => rfl
  | cons c r ih => exact ih c

/-- C3: for a non-empty series with nonzero first close, `summarize` yields
the first close as `startPrice`, the last close as `endPrice`,
`(endPrice - startPrice) / startPrice * 100` as the total return, and the
maximum/minimum of all closes as `maxPrice`/`minPrice`; on the concrete
series with closes `[100, 110, 90]` this gives start 100, end 90, total
return -10, max 110, min 90. -/
theorem summarize_fields :
    (∀ (b : Bar) (rest : List Bar), b.close ≠ 0 →
      ∃ ps, summarize (b :: rest) = some ps ∧
        ps.startPrice = b.close ∧
        ps.endPrice = (List.getLast (b :: rest) (List.cons_ne_nil b rest)).close ∧
        ps.totalReturnPct =
          some ((ps.endPrice - ps.startPrice) / ps.startPrice * 100) ∧
        ps.maxPrice ∈ (b :: rest).map Bar.close ∧
        (∀ x ∈ (b :: rest).map Bar.close, x ≤ ps.maxPrice) ∧
        ps.minPrice ∈ (b :: rest).map Bar.close ∧
        (∀ x ∈ (b :: rest).map Bar.close, ps.minPrice ≤ x)) ∧
    summarize [mkBar 1 100, mkBar 2 110, mkBar 3 90] =
      some { startPrice := 100, endPrice := 90, totalReturnPct := some (-10),
             maxPrice := 110, minPrice := 90, volatilitySq := some 100 } := by
  constructor
  · intro b rest h
    refine ⟨_, rfl, rfl, ?_, ?_, ?_, ?_, ?_, ?_⟩
    · exact lastClose_eq_getLast b rest
    · simp [npDiv, if_neg h]
    · show List.foldl max b.close (rest.map Bar.close) ∈ _
      rw [List.map_cons]
      rcases foldl_max_mem (rest.map Bar.close) b.close with he | hm
      · exact List.mem_cons.mpr (Or.inl he)
      · exact List.mem_cons_of_mem _ hm
    · intro x hx
      rw [List.map_cons] at hx
      rcases List.mem_cons.mp hx with rfl | hm
      · exact le_foldl_max (rest.map Bar.close) b.close
      · exact foldl_max_le_of_mem (rest.map Bar.close) b.close x hm
    · show List.foldl min b.close (rest.map Bar.close) ∈ _
      rw [List.map_cons]
      rcases foldl_min_mem (rest.map Bar.close) b.close with he | hm
      · exact List.mem_cons.mpr (Or.inl he)
      · exact List.mem_cons_of_mem _ hm
    · intro x hx
      rw [List.map_cons] at hx
      rcases List.mem_cons.mp hx with rfl | hm
      · exact foldl_min_le (rest.map Bar.close) b.close
      · exact foldl_min_le_of_mem (rest.map Bar.close) b.close x hm
  · norm_num [summarize, lastClose, varSample, seriesMean, npDiv, mkBar]

/-- Witness for C3: the general part applied to the concrete series with
closes `[100, 110, 90]`. -/
theorem summarize_fields_witness :
    (mkBar 1 100).close ≠ 0 ∧
    ∃ ps, summarize (mkBar 1 100 :: [mkBar 2 110, mkBar 3 90]) = some ps ∧
      ps.startPrice = (mkBar 1 100).close ∧
      ps.endPrice = (List.getLast (mkBar 1 100 :: [mkBar 2 110, mkBar 3 90])
        (List.cons_ne_nil _ _)).close ∧
      ps.totalReturnPct =
        some ((ps.endPrice - ps.startPrice) / ps.startPrice * 100) ∧
      ps.maxPrice ∈ (mkBar 1 100 :: [mkBar 2 110, mkBar 3 90]).map Bar.close ∧
      (∀ x ∈ (mkBar 1 100 :: [mkBar 2 110, mkBar 3 90]).map Bar.close,
        x ≤ ps.maxPrice) ∧
      ps.minPrice ∈ (mkBar 1 100 :: [mkBar 2 110, mkBar 3 90]).map Bar.close ∧
      (∀ x ∈ (mkBar 1 100 :: [mkBar 2 110, mkBar 3 90]).map Bar.close,
        ps.minPrice ≤ x) :=
  ⟨by norm_num [mkBar],
    summarize_fields.1 (mkBar 1 100) [mkBar 2 110, mkBar 3 90] (by norm_num [mkBar])⟩

/-- Counterexample to C2: the code computes the standard deviation with the
pandas default ddof 1 (sample estimator), not the population estimator.  On
the one-bar series with close 100 the volatility is NaN (`none`), not 0; on
the series with closes `[0, 2]` the squared volatility is 2 while the
population variance of the closes is 1. -/
theorem summarize_volatility_not_population :
    (summarize [mkBar 1 100]).map PerformanceSummary.volatilitySq ≠
      some (some 0) ∧
    (summarize [mkBar 1 0, mkBar 2 2]).map PerformanceSummary.volatilitySq =
      some (some 2) ∧
    specVarPopulation [(0 : ℚ), 2] = 1 := by
  refine ⟨?_, ?_, ?_⟩
  · simp [summarize, varSample, mkBar]
  · norm_num [summarize, varSample, seriesMean, mkBar]
  · norm_num [specVarPopulation, seriesMean]

/-- C2 as amended: `summarize` computes the volatility as the sample standard
deviation (pandas default, divisor `n - 1`); for every series of length 1
with nonzero close it yields `totalReturnPct = 0`, an undefined (NaN)
volatility, and `maxPrice = minPrice = startPrice = endPrice`; for a series
of length 2 the squared volatility is the squared difference of the closes
divided by `2 - 1 = 1` times `1/2`, i.e. `(c1 - c2)^2 / 2`. -/
theorem summarize_singleton_and_sample_variance :
    (∀ b : Bar, b.close ≠ 0 →
      summarize [b] =
        some { startPrice := b.close, endPrice := b.close,
               totalReturnPct := some 0, maxPrice := b.close,
               minPrice := b.close, volatilitySq := none }) ∧
    (∀ b c : Bar,
      (summarize [b, c]).map PerformanceSummary.volatilitySq =
        some (some ((b.close - c.close) * (b.close - c.close) / 2))) := by
  constructor
  · intro b h
    simp [summarize, lastClose, npDiv, if_neg h, varSample]
  · intro b c
    simp only [summarize, Option.map_some]
    simp only [List.map_cons, List.map_nil, varSample, seriesMean, List.sum_cons,
      List.sum_nil, List.length_cons, List.length_nil]
    norm_num
    ring_nf

/-- Witness for the amended C2 at the one-bar series with close 7 and the
two-bar series with closes 3 and 5. -/
theorem summarize_singleton_witness :
    ((mkBar 5 7).close ≠ 0 ∧
      summarize [mkBar 5 7] =
        some { startPrice := (mkBar 5 7).close,
               endPrice := (mkBar 5 7).close, totalReturnPct := some 0,
               maxPrice := (mkBar 5 7).close, minPrice := (mkBar 5 7).close,
               volatilitySq := none }) ∧
    (summarize [mkBar 1 3, mkBar 2 5]).map PerformanceSummary.volatilitySq =
      some (some (((mkBar 1 3).close - (mkBar 2 5).close) *
        ((mkBar 1 3).close - (mkBar 2 5).close) / 2)) :=
  ⟨⟨by norm_num [mkBar],
      summarize_singleton_and_sample_variance.1 (mkBar 5 7) (by norm_num [mkBar])⟩,
    summarize_singleton_and_sample_variance.2 (mkBar 1 3) (mkBar 2 5)⟩

/-- C9: for a non-empty series with nonzero first close, `normalize` leaves
every bar's timestamp, open, high, low, close and volume columns equal to
their input values; only the derived normalized close is added. -/
theorem normalize_preserves_columns (b0 : Bar) (rest : List Bar)
    (_h : b0.close ≠ 0) :
    ∃ l, normalize (b0 :: rest) = .ok l ∧
      l.map NBar.timestamp = (b0 :: rest).map Bar.timestamp ∧
      l.map NBar.open_ = (b0 :: rest).map Bar.open_ ∧
      l.map NBar.high = (b0 :: rest).map Bar.high ∧
      l.map NBar.low = (b0 :: rest).map Bar.low ∧
      l.map NBar.close = (b0 :: rest).map Bar.close ∧
      l.map NBar.volume = (b0 :: rest).map Bar.volume := by
  refine ⟨_, rfl, ?_, ?_, ?_, ?_, ?_, ?_⟩ <;>
    simp [List.map_map, Function.comp_def, normBar]

/-- Witness for C9 at a two-bar series with distinct column values. -/
theorem normalize_preserves_columns_witness :
    (Bar.mk 7 1 2 3 4 5).close ≠ 0 ∧
    ∃ l, normalize (Bar.mk 7 1 2 3 4 5 :: [Bar.mk 8 6 7 8 9 10]) = .ok l ∧
      l.map NBar.timestamp =
        (Bar.mk 7 1 2 3 4 5 :: [Bar.mk 8 6 7 8 9 10]).map Bar.timestamp ∧
      l.map NBar.open_ =
        (Bar.mk 7 1 2 3 4 5 :: [Bar.mk 8 6 7 8 9 10]).map Bar.open_ ∧
      l.map NBar.high =
        (Bar.mk 7 1 2 3 4 5 :: [Bar.mk 8 6 7 8 9 10]).map Bar.high ∧
      l.map NBar.low =
        (Bar.mk 7 1 2 3 4 5 :: [Bar.mk 8 6 7 8 9 10]).map Bar.low ∧
      l.map NBar.close =
        (Bar.mk 7 1 2 3 4 5 :: [Bar.mk 8 6 7 8 9 10]).map Bar.close ∧
      l.map NBar.volume =
        (Bar.mk 7 1 2 3 4 5 :: [Bar.mk 8 6 7 8 9 10]).map Bar.volume :=
  ⟨by norm_num,
    normalize_preserves_columns (Bar.mk 7 1 2 3 4 5) [Bar.mk 8 6 7 8 9 10]
      (by norm_num)⟩

/-- Counterexample to C7: the normalization expression applied to an empty
series does not produce an empty normalized series: the access
`data["Close"].iloc[0]` raises `IndexError` on an empty frame, and the
deployed caller never reaches it, because the guard at line 373 skips empty
series with a warning, adding no series at all. -/
theorem normalize_empty_counterexample :
    normalize ([] : List Bar) ≠ .ok ([] : List NBar) ∧
    normalize ([] : List Bar) = .error .indexError ∧
    processSeries (some ([] : List Bar)) = none := by
  refine ⟨?_, rfl, rfl⟩
  intro hcon
  simp [normalize] at hcon

/-- C7 as amended: the code never normalizes an empty series.  A fetch
failure (`None`) and an empty series are both skipped by the guard with a
warning, producing no normalized series; the bare normalization expression
would fail on first-element access (`IndexError`); every non-empty series
is normalized and produced. -/
theorem processSeries_empty_skipped :
    processSeries none = none ∧
    processSeries (some ([] : List Bar)) = none ∧
    normalize ([] : List Bar) = .error .indexError ∧
    ∀ (b : Bar) (rest : List Bar),
      processSeries (some (b :: rest)) =
        some ((b :: rest).map (normBar b.close)) := by
  refine ⟨rfl, rfl, rfl, ?_⟩
  intro b rest
  rfl

/-- Counterexample to C6: a zero base price is not signaled.  On the series
with closes `[0, 5]` (first close zero) `normalize` does not fail with a
division-by-zero error: it returns a series whose normalized closes are all
non-finite floats (`none`); likewise `summarize` returns a row whose total
return is a non-finite float instead of failing. -/
theorem division_by_zero_silent_counterexample :
    normalize [mkBar 1 0, mkBar 2 5] ≠ .error .divisionByZero ∧
    normalize [mkBar 1 0, mkBar 2 5] =
      .ok [⟨1, 0, 0, 0, 0, 0, none⟩, ⟨2, 5, 5, 5, 5, 0, none⟩] ∧
    (summarize [mkBar 1 0, mkBar 2 5]).map PerformanceSummary.totalReturnPct =
      some none := by
  refine ⟨?_, ?_, ?_⟩
  · intro hcon
    simp [normalize] at hcon
  · simp [normalize, normBar, npDiv, mkBar]
  · simp [summarize, npDiv, mkBar, lastClose]

/-- C6 as amended: division by a zero base price is silently computed, never
signaled: whenever the first close is zero, `normalize` succeeds and every
bar's normalized close is a non-finite float (`none`), and `summarize`
succeeds with a non-finite total return. -/
theorem division_by_zero_silent (b0 : Bar) (rest : List Bar)
    (h : b0.close = 0) :
    (∃ l, normalize (b0 :: rest) = .ok l ∧
      ∀ n ∈ l, n.normalizedClose = none) ∧
    (∃ ps, summarize (b0 :: rest) = some ps ∧ ps.totalReturnPct = none) := by
  constructor
  · refine ⟨_, rfl, ?_⟩
    intro n hn
    rcases List.mem_map.mp hn with ⟨b, _, rfl⟩
    simp [normBar, npDiv, h]
  · exact ⟨_, rfl, by simp [npDiv, h]⟩

/-- Witness for the amended C6 at the series with closes `[0, 5]`. -/
theorem division_by_zero_silent_witness :
    (mkBar 1 0).close = 0 ∧
    ((∃ l, normalize (mkBar 1 0 :: [mkBar 2 5]) = .ok l ∧
        ∀ n ∈ l, n.normalizedClose = none) ∧
      (∃ ps, summarize (mkBar 1 0 :: [mkBar 2 5]) = some ps ∧
        ps.totalReturnPct = none)) :=
  ⟨rfl, division_by_zero_silent (mkBar 1 0) [mkBar 2 5] rfl⟩

/-- numpy float subtraction lifted to possibly non-finite values: if either
operand is non-finite the result is non-finite. -/
def npSub (a b : Option ℚ) : Option ℚ :=
  match a, b with
  | some x, some y => some (x - y)
  | _, _ => none

/-- Evaluation of iloc at index -1 on the non-empty normalized series
`n :: rest`: the normalized close of the last bar. -/
def lastNormClose (n : NBar) : List NBar → Option ℚ
  | [] => n.normalizedClose
  | m :: r => lastNormClose m r

/-- Lines 424-440 of `03_added.py`: the total-return column of the
all-weather performance table, guarded by `if len(data) > 0` (outer `none`
for the empty series, whose row is skipped):

    initial_normalized_price = data["Normalized Close"].iloc[0]
    current_normalized_price = data["Normalized Close"].iloc[-1]
    total_return = current_normalized_price - initial_normalized_price
-/
def awTotalReturn : List NBar → Option (Option ℚ)
  | [] => none
  | n :: rest => some (npSub (lastNormClose n rest) n.normalizedClose)

lemma lastNormClose_map_normBar (c0 : ℚ) :
    ∀ (r : List Bar) (b : Bar),
      lastNormClose (normBar c0 b) (r.map (normBar c0)) =
        (npDiv (lastClose b r) c0).map (fun x => x * 100) := by
  intro r
  induction r with
  | nil => intro b; rfl
  | cons c rs ih => intro b; exact ih c

/-- C10: for every non-empty series with nonzero first close, the direct
total-return formula of the performance table
(`(end - start) / start * 100`, lines 278-280) agrees with the
normalized-difference formula of the all-weather table (last normalized
close minus first normalized close, lines 424-440). -/
theorem totalReturn_refinement (b0 : Bar) (rest : List Bar)
    (h : b0.close ≠ 0) :
    ∃ l, normalize (b0 :: rest) = .ok l ∧
      awTotalReturn l =
        (summarize (b0 :: rest)).map PerformanceSummary.totalReturnPct := by
  refine ⟨_, rfl, ?_⟩
  show awTotalReturn (normBar b0.close b0 :: rest.map (normBar b0.close)) = _
  rw [awTotalReturn, lastNormClose_map_normBar b0.close rest b0]
  simp only [summarize, Option.map_some, normBar, npDiv, if_neg h]
  simp only [Option.map_some, npSub]
  congr 2
  field_simp
  ring

/-- Witness for C10 at the concrete series with closes `[50, 110, 90]`. -/
theorem totalReturn_refinement_witness :
    (mkBar 1 50).close ≠ 0 ∧
    ∃ l, normalize (mkBar 1 50 :: [mkBar 2 110, mkBar 3 90]) = .ok l ∧
      awTotalReturn l =
        (summarize (mkBar 1 50 :: [mkBar 2 110, mkBar 3 90])).map
          PerformanceSummary.totalReturnPct :=
  ⟨by norm_num [mkBar],
    totalReturn_refinement (mkBar 1 50) [mkBar 2 110, mkBar 3 90]
      (by norm_num [mkBar])⟩

/-- A named crisis window, one entry of the CRISIS_PERIODS table of
`03_added.py` lines 42-48.  The dates are `datetime` values, encoded as
integers so that the chronological order is the integer order. -/
structure CrisisWindow where
  name : String
  startDate : Int
  endDate : Int
  description : String
deriving DecidableEq, Repr

/-- Lines 42-48 of `03_added.py`: the static crisis catalogue, in insertion
order of the Python dict; `datetime(y, m, d)` is encoded as the integer
`y * 10000 + m * 100 + d`. -/
def CRISIS_PERIODS : List CrisisWindow :=
  [ { name := "코로나19 팬데믹 쇼크", startDate := 20200219, endDate := 20200401,
      description := "코로나19 팬데믹으로 인한 급락" },
    { name := "2022년 인플레이션/금리 인상", startDate := 20220101,
      endDate := 20221231,
      description := "인플레이션 및 금리 인상으로 인한 시장 하락" },
    { name := "실리콘밸리 은행 파산", startDate := 20230308, endDate := 20230320,
      description := "SVB 파산으로 인한 금융시장 불안" } ]

/-- The overlap test of `03_added.py` line 97:

    if not (crisis_end < start_date or crisis_start > end_date)
-/
def overlapsDisplay (w : CrisisWindow) (startDate endDate : Int) : Bool :=
  !(decide (w.endDate < startDate) || decide (w.startDate > endDate))

/-- Lines 89-108 of `03_added.py` (`add_crisis_regions`): iterate the crisis
catalogue in insertion order and keep the windows passing the overlap test;
the kept windows are exactly those for which a shaded vertical region is
added to the figure.  The catalogue is a parameter here; the code reads the
global CRISIS_PERIODS table, which the spec treats as caller-supplied
configuration. -/
def add_crisis_regions (catalogue : List CrisisWindow)
    (startDate endDate : Int) : List CrisisWindow :=
  catalogue.filter (fun w => overlapsDisplay w startDate endDate)

/-- C4: a catalogue window is reported as overlapping the display range iff
not (its end is before the display start or its start is after the display
end); in particular a well-formed window whose start equals the display end
is reported as overlapping (closed-interval test, touching endpoints
count). -/
theorem crisis_overlap_iff (cat : List CrisisWindow) (w : CrisisWindow)
    (s e : Int) (hw : w ∈ cat) :
    (w ∈ add_crisis_regions cat s e ↔ ¬(w.endDate < s ∨ w.startDate > e)) ∧
    (w.startDate ≤ w.endDate → s ≤ e → e = w.startDate →
      w ∈ add_crisis_regions cat s e) := by
  constructor
  · rw [add_crisis_regions, List.mem_filter]
    simp [overlapsDisplay, hw, not_or]
  · intro hwf hse heq
    rw [add_crisis_regions, List.mem_filter]
    refine ⟨hw, ?_⟩
    simp only [overlapsDisplay, Bool.not_eq_eq_eq_not, Bool.not_true,
      Bool.or_eq_false_iff, decide_eq_false_iff_not, not_lt]
    subst heq
    exact ⟨le_trans hse hwf, le_refl _⟩

/-- Witness for C4: the COVID-19 window against the display range ending
exactly on the window's start date, 2020-02-19 (the spec's scenario 3). -/
theorem crisis_overlap_iff_witness :
    ({ name := "코로나19 팬데믹 쇼크", startDate := 20200219,
       endDate := 20200401, description := "코로나19 팬데믹으로 인한 급락" } :
        CrisisWindow) ∈ CRISIS_PERIODS ∧
    (({ name := "코로나19 팬데믹 쇼크", startDate := 20200219,
        endDate := 20200401, description := "코로나19 팬데믹으로 인한 급락" } :
          CrisisWindow) ∈
        add_crisis_regions CRISIS_PERIODS 20200101 20200219 ↔
      ¬((20200401 : Int) < 20200101 ∨ (20200219 : Int) > 20200219)) ∧
    ((20200219 : Int) ≤ 20200401 → (20200101 : Int) ≤ 20200219 →
      (20200219 : Int) = 20200219 →
      ({ name := "코로나19 팬데믹 쇼크", startDate := 20200219,
         endDate := 20200401, description := "코로나19 팬데믹으로 인한 급락" } :
           CrisisWindow) ∈
        add_crisis_regions CRISIS_PERIODS 20200101 20200219) :=
  ⟨List.mem_cons_self _ _,
    crisis_overlap_iff CRISIS_PERIODS _ 20200101 20200219
      (List.mem_cons_self _ _)⟩

/-- C8: the annotator is a pure total filter over the catalogue: for every
catalogue and date pair it returns the sublist of catalogue windows passing
the overlap test, in catalogue (insertion) order, and the empty catalogue
yields the empty sequence.  Totality and purity are inherent: the embedding
is a total function of its arguments. -/
theorem add_crisis_regions_total (cat : List CrisisWindow) (s e : Int) :
    (add_crisis_regions cat s e).Sublist cat ∧
    (∀ w, w ∈ add_crisis_regions cat s e ↔
      w ∈ cat ∧ overlapsDisplay w s e = true) ∧
    add_crisis_regions ([] : List CrisisWindow) s e = [] :=
  ⟨List.filter_sublist cat, fun _ => List.mem_filter, rfl⟩

/-- Lines 168-178 of `03_added.py`: the lookback resolution of the
top-companies section.  `now` is `datetime.now()` in days, the result is
`(plot_start_date, end_date)`:

    if selected_period_value == "1y":
        plot_start_date = end_date - timedelta(days=365)
    ... ("2y": 2*365, "3y": 3*365, "5y": 5*365)
    else: plot_start_date = end_date - timedelta(days=3 * 365)
-/
def resolveLookbackTop (periodCode : String) (now : Int) : Int × Int :=
  if periodCode = "1y" then (now - 365, now)
  else if periodCode = "2y" then (now - 2 * 365, now)
  else if periodCode = "3y" then (now - 3 * 365, now)
  else if periodCode = "5y" then (now - 5 * 365, now)
  else (now - 3 * 365, now)

/-- Lines 356-366 of `03_added.py`: the lookback resolution of the
all-weather section, recognizing "1y", "3y", "5y" and "10y", with the same
silent 3-year fallback. -/
def resolveLookbackAW (periodCode : String) (now : Int) : Int × Int :=
  if periodCode = "1y" then (now - 365, now)
  else if periodCode = "3y" then (now - 3 * 365, now)
  else if periodCode = "5y" then (now - 5 * 365, now)
  else if periodCode = "10y" then (now - 10 * 365, now)
  else (now - 3 * 365, now)

/-- Counterexample to C5: neither resolver fails on an unrecognized code,
and neither recognizes the full set of five codes.  The top-companies
resolver silently maps "10y" (and the never-offered "7y") to the 3-year
offset of 1095 days instead of 3650 or an InvalidPeriod failure, and the
all-weather resolver silently maps "2y" to 1095 days instead of 730. -/
theorem resolveLookback_counterexample :
    resolveLookbackTop "10y" 0 = (-1095, 0) ∧
    resolveLookbackTop "10y" 0 ≠ (-3650, 0) ∧
    resolveLookbackAW "2y" 0 = (-1095, 0) ∧
    resolveLookbackAW "2y" 0 ≠ (-730, 0) ∧
    resolveLookbackTop "7y" 0 = (-1095, 0) := by
  refine ⟨by decide, by decide, by decide, by decide, by decide⟩

/-- C5 as amended: the top-companies resolver maps its recognized codes
{1y, 2y, 3y, 5y} to the day offsets (365, 730, 1095, 1825) subtracted from
now, the all-weather resolver maps its recognized codes {1y, 3y, 5y, 10y}
to (365, 1095, 1825, 3650), both with `endDate = now`; every other code
(including "10y" for the former and "2y" for the latter) silently falls
back to the 3-year offset of 1095 days instead of failing with
InvalidPeriod. -/
theorem resolveLookback_mapping :
    (∀ now : Int,
      resolveLookbackTop "1y" now = (now - 365, now) ∧
      resolveLookbackTop "2y" now = (now - 730, now) ∧
      resolveLookbackTop "3y" now = (now - 1095, now) ∧
      resolveLookbackTop "5y" now = (now - 1825, now) ∧
      resolveLookbackAW "1y" now = (now - 365, now) ∧
      resolveLookbackAW "3y" now = (now - 1095, now) ∧
      resolveLookbackAW "5y" now = (now - 1825, now) ∧
      resolveLookbackAW "10y" now = (now - 3650, now)) ∧
    (∀ (code : String) (now : Int),
      code ∉ ["1y", "2y", "3y", "5y"] →
        resolveLookbackTop code now = (now - 1095, now)) ∧
    (∀ (code : String) (now : Int),
      code ∉ ["1y", "3y", "5y", "10y"] →
        resolveLookbackAW code now = (now - 1095, now)) := by
  refine ⟨?_, ?_, ?_⟩
  · intro now
    have d21 : ("2y" : String) ≠ "1y" := by decide
    have d31 : ("3y" : String) ≠ "1y" := by decide
    have d32 : ("3y" : String) ≠ "2y" := by decide
    have d51 : ("5y" : String) ≠ "1y" := by decide
    have d52 : ("5y" : String) ≠ "2y" := by decide
    have d53 : ("5y" : String) ≠ "3y" := by decide
    have dt1 : ("10y" : String) ≠ "1y" := by decide
    have dt3 : ("10y" : String) ≠ "3y" := by decide
    have dt5 : ("10y" : String) ≠ "5y" := by decide
    refine ⟨?_, ?_, ?_, ?_, ?_, ?_, ?_, ?_⟩ <;>
      norm_num [resolveLookbackTop, resolveLookbackAW, d21, d31, d32, d51, d52,
        d53, dt1, dt3, dt5]
  · intro code now hcode
    simp only [List.mem_cons, List.not_mem_nil, or_false, not_or] at hcode
    obtain ⟨h1, h2, h3, h5⟩ := hcode
    simp [resolveLookbackTop, h1, h2, h3, h5]
  · intro code now hcode
    simp only [List.mem_cons, List.not_mem_nil, or_false, not_or] at hcode
    obtain ⟨h1, h3, h5, h10⟩ := hcode
    simp [resolveLookbackAW, h1, h3, h5, h10]

/-- Witness for the amended C5: the mapping at `now = 1000000` and the
fallback at the unrecognized code "7y". -/
theorem resolveLookback_mapping_witness :
    (resolveLookbackTop "1y" 1000000 = (1000000 - 365, 1000000) ∧
      resolveLookbackTop "2y" 1000000 = (1000000 - 730, 1000000) ∧
      resolveLookbackTop "3y" 1000000 = (1000000 - 1095, 1000000) ∧
      resolveLookbackTop "5y" 1000000 = (1000000 - 1825, 1000000) ∧
      resolveLookbackAW "1y" 1000000 = (1000000 - 365, 1000000) ∧
      resolveLookbackAW "3y" 1000000 = (1000000 - 1095, 1000000) ∧
      resolveLookbackAW "5y" 1000000 = (1000000 - 1825, 1000000) ∧
      resolveLookbackAW "10y" 1000000 = (1000000 - 3650, 1000000)) ∧
    ("7y" ∉ (["1y", "2y", "3y", "5y"] : List String) ∧
      resolveLookbackTop "7y" 1000000 = (1000000 - 1095, 1000000)) ∧
    ("7y" ∉ (["1y", "3y", "5y", "10y"] : List String) ∧
      resolveLookbackAW "7y" 1000000 = (1000000 - 1095, 1000000)) :=
  ⟨resolveLookback_mapping.1 1000000,
    ⟨by decide, resolveLookback_mapping.2.1 "7y" 1000000 (by decide)⟩,
    ⟨by decide, resolveLookback_mapping.2.2 "7y" 1000000 (by decide)⟩⟩

end StockApp
